import Mathlib

/-!
Shallow embedding of the selene CLI driver (`src/selene/src/main.rs`).

The orchestrator is modelled as pure functions over an explicit environment
`Env` that packages the external collaborators (filesystem reads, the TOML
parsers, the Lua parser, the standard-library registry, the checker).  The
three global atomic counters become a `Counters` record threaded through the
per-file work; the thread pool is modelled by running the submitted tasks
sequentially at the join point (counter updates are commutative additions, so
the sequential fold computes the same totals as any interleaving).  A `return`
from Rust's `main` is an exit with status 0, which the model records
explicitly in `MainOutcome.exitCode`.
-/

namespace Selene

/-- Severity of a checker diagnostic (`selene_lib::rules::Severity`), which has
exactly the two variants matched in `read_file`. -/
inductive Severity where
  | Error
  | Warning
deriving DecidableEq, Repr

/-- The inner diagnostic carried by a checker diagnostic: a start position used
as the sort key, and a message. -/
structure Diagnostic where
  startPosition : Nat
  message : String
deriving DecidableEq, Repr

/-- A diagnostic as returned by `checker.test_on`: a severity plus the inner
diagnostic (`diagnostic.severity`, `diagnostic.diagnostic`). -/
structure CheckerDiagnostic where
  severity : Severity
  diagnostic : Diagnostic
deriving DecidableEq, Repr

/-- Reason a filesystem read (or metadata lookup) fails.  The source matches
read failures with a catch-all `Err(_)`/`Err(error)`, so only the existence of
distinct causes matters, not their structure. -/
inductive IOError where
  | notFound
  | permissionDenied
  | otherError
deriving DecidableEq, Repr

/-- What `fs::metadata` classifies a path as (`is_file` / `is_dir` / neither). -/
inductive FileKind where
  | file
  | dir
  | other
deriving DecidableEq, Repr

/-- The three global counters (`PARSE_ERRORS`, `LINT_ERRORS`, `LINT_WARNINGS`). -/
structure Counters where
  parse_errors : Nat
  lint_errors : Nat
  lint_warnings : Nat
deriving DecidableEq, Repr

/-- The all-zero initial counter state. -/
def Counters.zero : Counters := ⟨0, 0, 0⟩

/-- One rendered diagnostic block as emitted by `codespan_reporting::term::emit`
(one block per diagnostic; `quiet` selects `DisplayStyle::Short` vs `Rich`). -/
structure RenderedBlock where
  file : String
  startPosition : Nat
  severity : Severity
  quiet : Bool
deriving DecidableEq, Repr

/-- A non-fatal error report written by the `error!` macro on a path that does
not abort the run. -/
inductive Report where
  | readFileFailed (file : String) (e : IOError)
  | parseFailed (file : String) (e : String)
  | metadataFailed (target : String) (e : IOError)
  | globEntryFailed (target : String) (e : String)
deriving DecidableEq, Repr

/-- A fatal error: one reported by `error!` immediately before a `return` from
`main`.  `unknownStdlib sel` renders as `Unknown standard library '<sel>'`. -/
inductive Fatal where
  | configRead (e : IOError)
  | configParse (e : String)
  | stdlibParse (e : String)
  | unknownStdlib (selector : String)
  | checkerError (e : String)
  | invalidGlob (e : String)
deriving DecidableEq, Repr

/-- Abort raised while enumerating targets: an invalid glob pattern (a fatal
`return`) or the `unreachable!` panic on a non-file non-dir metadata result. -/
inductive EnumAbort where
  | invalidGlob (e : String)
  | unreachableEntry
deriving DecidableEq, Repr

/-- The CLI options structure (`opts::Options`) after argument parsing. -/
structure Options where
  config : Option String
  pattern : String
  num_threads : Nat
  quiet : Bool
  files : List String
deriving DecidableEq, Repr

/-- The external collaborators consumed by `main` and `read_file`, as pure
functions: filesystem reads and metadata, the TOML deserializers for the
config and the standard library, `StandardLibrary::inflate` and `from_name`,
`Checker::new`, `full_moon::parse`, `checker.test_on`, and `glob::glob` (which
yields either a pattern error or a list of per-entry results). -/
structure Env (Config Stdlib Chk Ast : Type) where
  readToString : String → Except IOError String
  parseConfig : String → Except String Config
  defaultConfig : Config
  configStd : Config → String
  parseStdlib : String → Except String Stdlib
  inflate : Stdlib → Stdlib
  fromName : String → Option Stdlib
  checkerNew : Config → Stdlib → Except String Chk
  parse : String → Except String Ast
  testOn : Chk → Ast → List CheckerDiagnostic
  metadata : String → Except IOError FileKind
  glob : String → Except String (List (Except String String))

variable {Config Stdlib Chk Ast : Type}

/-- The comparison passed to the diagnostic sort:
`sort_by_key(|diagnostic| diagnostic.diagnostic.start_position())`. -/
def sortLe (a b : CheckerDiagnostic) : Bool :=
  decide (a.diagnostic.startPosition ≤ b.diagnostic.startPosition)

/-- Rendering one diagnostic against a file
(`into_codespan_diagnostic` + `term::emit`): one block recording the file, the
diagnostic position and severity, and the display style chosen by `QUIET`. -/
def renderBlock (quiet : Bool) (filename : String) (d : CheckerDiagnostic) :
    RenderedBlock :=
  { file := filename
    startPosition := d.diagnostic.startPosition
    severity := d.severity
    quiet := quiet }

/-- The `(mut errors, mut warnings)` loop of `read_file`: fold over the
diagnostics, incrementing the error count on `Severity::Error` and the warning
count on `Severity::Warning`. -/
def severityCounts (diags : List CheckerDiagnostic) : Nat × Nat :=
  diags.foldl
    (fun (acc : Nat × Nat) d =>
      match d.severity with
      | .Error => (acc.1 + 1, acc.2)
      | .Warning => (acc.1, acc.2 + 1))
    (0, 0)

/-- `read_file(checker, filename)`: read the file (report and return on
failure), parse it (bump `PARSE_ERRORS`, report and return on failure), run
the checker, sort the diagnostics by start position (Rust's `sort_by_key` is a
stable sort, modelled by `List.mergeSort`), add the per-file severity counts
to `LINT_ERRORS`/`LINT_WARNINGS`, and emit one rendered block per diagnostic
in sorted order.  Returns the updated counters, the rendered blocks, and the
non-fatal reports. -/
def read_file (env : Env Config Stdlib Chk Ast) (quiet : Bool) (checker : Chk)
    (counters : Counters) (filename : String) :
    Counters × List RenderedBlock × List Report :=
  match env.readToString filename with
  | .error e => (counters, [], [.readFileFailed filename e])
  | .ok contents =>
    match env.parse contents with
    | .error e =>
      ({ counters with parse_errors := counters.parse_errors + 1 }, [],
        [.parseFailed filename e])
    | .ok ast =>
      let diagnostics := List.mergeSort (env.testOn checker ast) sortLe
      let counts := severityCounts diagnostics
      ({ counters with
          lint_errors := counters.lint_errors + counts.1
          lint_warnings := counters.lint_warnings + counts.2 },
        diagnostics.map (renderBlock quiet filename), [])

/-- Configuration resolution (`main`, the `matches.config` match): an explicit
path must be readable and parse; with no explicit path, `selene.toml` is
tried, any read failure falls back to `CheckerConfig::default()`, and a parse
failure of read contents is fatal with the same error as the explicit case. -/
def resolveConfig (env : Env Config Stdlib Chk Ast) (configOpt : Option String) :
    Except Fatal Config :=
  match configOpt with
  | some config_file =>
    match env.readToString config_file with
    | .error e => .error (.configRead e)
    | .ok config_contents =>
      match env.parseConfig config_contents with
      | .ok config => .ok config
      | .error e => .error (.configParse e)
  | none =>
    match env.readToString "selene.toml" with
    | .ok config_contents =>
      match env.parseConfig config_contents with
      | .ok config => .ok config
      | .error e => .error (.configParse e)
    | .error _ => .ok env.defaultConfig

/-- Standard-library resolution (`main`, the `standard_library` match): first
read `<config.std>.toml`; parsed contents are inflated before use, malformed
contents are fatal; on any read failure fall through to
`StandardLibrary::from_name`, and an unknown name is fatal. -/
def resolveStdlib (env : Env Config Stdlib Chk Ast) (config : Config) :
    Except Fatal Stdlib :=
  match env.readToString (env.configStd config ++ ".toml") with
  | .ok contents =>
    match env.parseStdlib contents with
    | .ok standard_library => .ok (env.inflate standard_library)
    | .error e => .error (.stdlibParse e)
  | .error _ =>
    match env.fromName (env.configStd config) with
    | some std => .ok std
    | none => .error (.unknownStdlib (env.configStd config))

/-- The `for filename in &matches.files` loop: classify each target via
`fs::metadata`.  A file is submitted as one task; a directory is expanded via
`glob(<target>/<pattern>)`, whose matches are submitted and whose per-entry
errors are reported non-fatally; an invalid glob pattern aborts the loop (and
`main`) at once; a metadata failure is reported and the loop continues; any
other file kind hits `unreachable!`.  Returns the submitted task paths in
order, the non-fatal reports, and the abort if one occurred. -/
def enumerateTargets (env : Env Config Stdlib Chk Ast) (pattern : String) :
    List String → List String × List Report × Option EnumAbort
  | [] => ([], [], none)
  | filename :: rest =>
    match env.metadata filename with
    | .ok .file =>
      let (tasks, reports, abort) := enumerateTargets env pattern rest
      (filename :: tasks, reports, abort)
    | .ok .dir =>
      match env.glob (filename ++ "/" ++ pattern) with
      | .error e => ([], [], some (.invalidGlob e))
      | .ok entries =>
        let tasksHere := entries.filterMap fun entry =>
          match entry with
          | .ok path => some path
          | .error _ => none
        let reportsHere : List Report := entries.filterMap fun entry =>
          match entry with
          | .ok _ => none
          | .error e => some (.globEntryFailed filename e)
        let (tasks, reports, abort) := enumerateTargets env pattern rest
        (tasksHere ++ tasks, reportsHere ++ reports, abort)
    | .ok .other => ([], [], some .unreachableEntry)
    | .error e =>
      let (tasks, reports, abort) := enumerateTargets env pattern rest
      (tasks, .metadataFailed filename e :: reports, abort)

/-- The worker pool up to `pool.join()`: every submitted task runs `read_file`
against the shared checker; modelled sequentially (the counter updates are
commutative additions, so the totals agree with any interleaving). -/
def runTasks (env : Env Config Stdlib Chk Ast) (quiet : Bool) (checker : Chk) :
    List String → Counters → Counters × List RenderedBlock × List Report
  | [], counters => (counters, [], [])
  | f :: fs, counters =>
    let (c1, r1, rep1) := read_file env quiet checker counters f
    let (c2, r2, rep2) := runTasks env quiet checker fs c1
    (c2, r1 ++ r2, rep1 ++ rep2)

/-- Observable outcome of one `main` invocation.  `exitCode` is the process
exit status: 0 when `main` returns (including every fatal `error!`+`return`
path), 1 via `std::process::exit(1)` when the counter sum is positive, 101 on
the `unreachable!` panic.  `summary` is the triple printed by `log_total`,
absent when the summary is never reached. -/
structure MainOutcome where
  fatalError : Option Fatal
  panicked : Bool
  submittedTasks : List String
  summary : Option Counters
  exitCode : Nat
  rendered : List RenderedBlock
  reports : List Report
deriving DecidableEq, Repr

/-- Outcome of a fatal `error!` + `return` from `main`: no summary is printed
and the process exit status is 0 (`main` returns `()`). -/
def fatalOutcome (f : Fatal) (tasks : List String) (reports : List Report) :
    MainOutcome :=
  { fatalError := some f
    panicked := false
    submittedTasks := tasks
    summary := none
    exitCode := 0
    rendered := []
    reports := reports }

/-- The tail of `main` past `pool.join()`: read the three counters, print the
summary via `log_total`, and `std::process::exit(1)` when their sum is
positive (otherwise `main` falls off the end, exiting 0). -/
def joinOutcome (env : Env Config Stdlib Chk Ast) (quiet : Bool) (checker : Chk)
    (tasks : List String) (enumReports : List Report) : MainOutcome :=
  let result := runTasks env quiet checker tasks Counters.zero
  { fatalError := none
    panicked := false
    submittedTasks := tasks
    summary := some result.1
    exitCode :=
      if result.1.parse_errors + result.1.lint_errors +
          result.1.lint_warnings > 0 then 1 else 0
    rendered := result.2.1
    reports := enumReports ++ result.2.2 }

/-- `main`: resolve the config, the standard library and the checker (each
failure is a fatal report-and-return), enumerate and submit the targets,
then join the pool and print the summary. -/
def seleneMain (env : Env Config Stdlib Chk Ast) (opts : Options) : MainOutcome :=
  match resolveConfig env opts.config with
  | .error f => fatalOutcome f [] []
  | .ok config =>
    match resolveStdlib env config with
    | .error f => fatalOutcome f [] []
    | .ok standard_library =>
      match env.checkerNew config standard_library with
      | .error e => fatalOutcome (.checkerError e) [] []
      | .ok checker =>
        match enumerateTargets env opts.pattern opts.files with
        | (tasks, enumReports, some (.invalidGlob e)) =>
          fatalOutcome (.invalidGlob e) tasks enumReports
        | (tasks, enumReports, some .unreachableEntry) =>
          { fatalError := none
            panicked := true
            submittedTasks := tasks
            summary := none
            exitCode := 101
            rendered := []
            reports := enumReports }
        | (tasks, enumReports, none) =>
          joinOutcome env opts.quiet checker tasks enumReports

/-! Specification-side measures used to state the claims: how many
diagnostics of each severity the engine reports for a file, and whether a
file read succeeds but its parse fails. -/

/-- The number of diagnostics the engine returns for a file that is read and
parsed successfully (0 for a file whose read or parse fails). -/
def engineDiagCount (env : Env Config Stdlib Chk Ast) (checker : Chk)
    (f : String) : Nat :=
  match env.readToString f with
  | .error _ => 0
  | .ok contents =>
    match env.parse contents with
    | .error _ => 0
    | .ok ast => (env.testOn checker ast).length

/-- The number of `Error`-severity diagnostics the engine returns for a file
that is read and parsed successfully. -/
def engineErrorCount (env : Env Config Stdlib Chk Ast) (checker : Chk)
    (f : String) : Nat :=
  match env.readToString f with
  | .error _ => 0
  | .ok contents =>
    match env.parse contents with
    | .error _ => 0
    | .ok ast => (env.testOn checker ast).countP fun d => d.severity == .Error

/-- The number of `Warning`-severity diagnostics the engine returns for a file
that is read and parsed successfully. -/
def engineWarningCount (env : Env Config Stdlib Chk Ast) (checker : Chk)
    (f : String) : Nat :=
  match env.readToString f with
  | .error _ => 0
  | .ok contents =>
    match env.parse contents with
    | .error _ => 0
    | .ok ast => (env.testOn checker ast).countP fun d => d.severity == .Warning

/-- 1 when the file is read successfully but fails to parse, 0 otherwise: the
per-file contribution to `PARSE_ERRORS`. -/
def parseFailFlag (env : Env Config Stdlib Chk Ast) (f : String) : Nat :=
  match env.readToString f with
  | .error _ => 0
  | .ok contents =>
    match env.parse contents with
    | .error _ => 1
    | .ok _ => 0

/-- Recognizer for the report written when a file's contents cannot be read. -/
def Report.isReadFailure : Report → Bool
  | .readFileFailed _ _ => true
  | _ => false

/-! Concrete environments over small collaborator types, used to evaluate the
embedded program on explicit inputs. -/

/-- Environment in which every filesystem read fails with `notFound` and every
other collaborator succeeds trivially. -/
def unitEnv : Env Unit Unit Unit Unit where
  readToString := fun _ => .error .notFound
  parseConfig := fun _ => .ok ()
  defaultConfig := ()
  configStd := fun _ => "lua51"
  parseStdlib := fun _ => .ok ()
  inflate := id
  fromName := fun _ => some ()
  checkerNew := fun _ _ => .ok ()
  parse := fun _ => .ok ()
  testOn := fun _ _ => []
  metadata := fun _ => .ok .file
  glob := fun _ => .ok []

/-- Default options: no explicit config, default glob pattern, one worker,
not quiet, no targets. -/
def baseOpts : Options where
  config := none
  pattern := "*.lua"
  num_threads := 1
  quiet := false
  files := []

/-- Options passing an explicit `--config` path. -/
def optsExplicit : Options := { baseOpts with config := some "cfg.toml" }

/-- Environment in which every read succeeds but the config does not parse. -/
def envMalformedConfig : Env Unit Unit Unit Unit :=
  { unitEnv with
    readToString := fun _ => .ok "x"
    parseConfig := fun _ => .error "bad" }

/-- Environment in which only `lua51.toml` is readable and the standard
library file does not parse. -/
def envMalformedStdlib : Env Unit Unit Unit Unit :=
  { unitEnv with
    readToString := fun s =>
      if s = "lua51.toml" then .ok "std" else .error .notFound
    parseStdlib := fun _ => .error "badstd" }

/-- Environment in which no standard-library file is readable and no built-in
preset exists. -/
def envUnknownStdlib : Env Unit Unit Unit Unit :=
  { unitEnv with fromName := fun _ => none }

/-- Environment in which only `lua51.toml` is readable and parses fine. -/
def envStdlibFile : Env Unit Unit Unit Unit :=
  { unitEnv with
    readToString := fun s =>
      if s = "lua51.toml" then .ok "std" else .error .notFound }

/-- Environment in which checker construction fails. -/
def envCheckerFailure : Env Unit Unit Unit Unit :=
  { unitEnv with checkerNew := fun _ _ => .error "bad checker" }

/-- Environment in which every filesystem read fails with `permissionDenied`. -/
def permEnv : Env Unit Unit Unit Unit :=
  { unitEnv with readToString := fun _ => .error .permissionDenied }

/-- `permEnv` with no built-in presets either. -/
def permEnvNoPreset : Env Unit Unit Unit Unit :=
  { permEnv with fromName := fun _ => none }

/-- Environment in which file contents are readable but never parse. -/
def parseFailEnv : Env Unit Unit Unit Unit :=
  { unitEnv with
    readToString := fun _ => .ok "x"
    parse := fun _ => .error "oops" }

/-- A warning diagnostic at position 5. -/
def diagA : CheckerDiagnostic := ⟨.Warning, ⟨5, "w"⟩⟩

/-- An error diagnostic at position 2. -/
def diagB : CheckerDiagnostic := ⟨.Error, ⟨2, "e"⟩⟩

/-- A warning diagnostic at position 9. -/
def diagC : CheckerDiagnostic := ⟨.Warning, ⟨9, "w2"⟩⟩

/-- Environment in which only `a.lua` is readable, everything parses, and the
checker reports three diagnostics out of source order. -/
def lintEnv : Env Unit Unit Unit Nat :=
  { readToString := fun s => if s = "a.lua" then .ok "code" else .error .notFound
    parseConfig := fun _ => .ok ()
    defaultConfig := ()
    configStd := fun _ => "lua51"
    parseStdlib := fun _ => .ok ()
    inflate := id
    fromName := fun _ => some ()
    checkerNew := fun _ _ => .ok ()
    parse := fun _ => .ok 0
    testOn := fun _ _ => [diagA, diagB, diagC]
    metadata := fun _ => .ok .file
    glob := fun _ => .ok [] }

/-- Environment in which `a.lua` is a file, every other target is a
directory, and every glob pattern is invalid. -/
def globEnv : Env Unit Unit Unit Unit :=
  { unitEnv with
    metadata := fun s => if s = "a.lua" then .ok .file else .ok .dir
    glob := fun _ => .error "bad pattern" }

/-- Options targeting a file and then a directory. -/
def globOpts : Options := { baseOpts with files := ["a.lua", "dir"] }

/-- Options targeting the single file `a.lua`. -/
def lintOpts : Options := { baseOpts with files := ["a.lua"] }

/-- Options targeting the single (unreadable) file `x.lua`. -/
def unreadableOpts : Options := { baseOpts with files := ["x.lua"] }

/-! Helper lemmas. -/

theorem sortLe_trans (a b c : CheckerDiagnostic) :
    sortLe a b → sortLe b c → sortLe a c := by
  simp only [sortLe, decide_eq_true_eq]
  omega

theorem sortLe_total (a b : CheckerDiagnostic) : sortLe a b || sortLe b a := by
  simp only [sortLe, Bool.or_eq_true, decide_eq_true_eq]
  omega

theorem severityCounts_aux (ds : List CheckerDiagnostic) (a b : Nat) :
    ds.foldl
      (fun (acc : Nat × Nat) d =>
        match d.severity with
        | .Error => (acc.1 + 1, acc.2)
        | .Warning => (acc.1, acc.2 + 1)) (a, b)
    = (a + ds.countP (fun d => d.severity == Severity.Error),
       b + ds.countP (fun d => d.severity == Severity.Warning)) := by
  induction ds generalizing a b with
  | nil => simp
  | cons d ds ih =>
    cases hs : d.severity <;>
      simp [List.foldl_cons, ih, List.countP_cons, hs] <;> omega

theorem severityCounts_eq (ds : List CheckerDiagnostic) :
    severityCounts ds
      = (ds.countP (fun d => d.severity == Severity.Error),
         ds.countP (fun d => d.severity == Severity.Warning)) := by
  simpa using severityCounts_aux ds 0 0

/-- Every diagnostic has severity `Error` or `Warning`, so the two severity
counts add up to the number of diagnostics. -/
theorem countP_error_add_warning (ds : List CheckerDiagnostic) :
    ds.countP (fun d => d.severity == Severity.Error)
      + ds.countP (fun d => d.severity == Severity.Warning) = ds.length := by
  induction ds with
  | nil => rfl
  | cons d ds ih =>
    cases hs : d.severity <;> simp [List.countP_cons, hs] <;> omega

/-- Counter characterization of one task: `read_file` adds the per-file
parse-failure flag and the per-file severity counts to the running counters. -/
theorem read_file_counters (env : Env Config Stdlib Chk Ast) (quiet : Bool)
    (checker : Chk) (counters : Counters) (f : String) :
    (read_file env quiet checker counters f).1
      = { parse_errors := counters.parse_errors + parseFailFlag env f
          lint_errors := counters.lint_errors + engineErrorCount env checker f
          lint_warnings :=
            counters.lint_warnings + engineWarningCount env checker f } := by
  unfold read_file parseFailFlag engineErrorCount engineWarningCount
  cases hr : env.readToString f with
  | error e => simp
  | ok contents =>
    cases hp : env.parse contents with
    | error e => simp [hp]
    | ok ast =>
      simp only [hp, severityCounts_eq]
      have hperm := List.mergeSort_perm (env.testOn checker ast) sortLe
      simp [hperm.countP_eq]

/-- Counter characterization of the whole pool: after the join, each counter
is the sum of the per-file contributions of the submitted tasks. -/
theorem runTasks_counters (env : Env Config Stdlib Chk Ast) (quiet : Bool)
    (checker : Chk) (tasks : List String) (counters : Counters) :
    (runTasks env quiet checker tasks counters).1
      = { parse_errors :=
            counters.parse_errors + (tasks.map (parseFailFlag env)).sum
          lint_errors :=
            counters.lint_errors
              + (tasks.map (engineErrorCount env checker)).sum
          lint_warnings :=
            counters.lint_warnings
              + (tasks.map (engineWarningCount env checker)).sum } := by
  induction tasks generalizing counters with
  | nil => simp [runTasks]
  | cons f fs ih =>
    simp only [runTasks, read_file_counters, ih, List.map_cons, List.sum_cons]
    simp [Counters.mk.injEq]
    omega

/-- Inversion of the summary path: a printed summary means configuration,
standard library and checker all resolved, enumeration finished without an
abort, and the outcome is the join outcome over the enumerated tasks. -/
theorem seleneMain_summary_inversion (env : Env Config Stdlib Chk Ast)
    (opts : Options) (c : Counters)
    (h : (seleneMain env opts).summary = some c) :
    ∃ config stdlib checker tasks enumReports,
      resolveConfig env opts.config = .ok config ∧
      resolveStdlib env config = .ok stdlib ∧
      env.checkerNew config stdlib = .ok checker ∧
      enumerateTargets env opts.pattern opts.files = (tasks, enumReports, none) ∧
      seleneMain env opts = joinOutcome env opts.quiet checker tasks enumReports := by
  cases hc : resolveConfig env opts.config with
  | error f => simp [seleneMain, hc, fatalOutcome] at h
  | ok config =>
    cases hs : resolveStdlib env config with
    | error f => simp [seleneMain, hc, hs, fatalOutcome] at h
    | ok stdlib =>
      cases hk : env.checkerNew config stdlib with
      | error e => simp [seleneMain, hc, hs, hk, fatalOutcome] at h
      | ok checker =>
        rcases he : enumerateTargets env opts.pattern opts.files with
          ⟨tasks, enumReports, abort⟩
        cases abort with
        | none =>
          refine ⟨config, stdlib, checker, tasks, enumReports,
            rfl, hs, hk, rfl, ?_⟩
          simp [seleneMain, hc, hs, hk, he]
        | some ab =>
          cases ab with
          | invalidGlob e => simp [seleneMain, hc, hs, hk, he, fatalOutcome] at h
          | unreachableEntry => simp [seleneMain, hc, hs, hk, he] at h

/-- The join outcome prints the counters computed by the pool and derives the
exit status from their sum. -/
theorem joinOutcome_summary (env : Env Config Stdlib Chk Ast) (quiet : Bool)
    (checker : Chk) (tasks : List String) (enumReports : List Report) :
    (joinOutcome env quiet checker tasks enumReports).summary
        = some (runTasks env quiet checker tasks Counters.zero).1
      ∧ (joinOutcome env quiet checker tasks enumReports).exitCode
        = (if (runTasks env quiet checker tasks Counters.zero).1.parse_errors
              + (runTasks env quiet checker tasks Counters.zero).1.lint_errors
              + (runTasks env quiet checker tasks Counters.zero).1.lint_warnings
              > 0 then 1 else 0) := by
  constructor <;> rfl

/-- Appending a directory target with an invalid glob pattern after targets
that enumerate without an abort: the enumeration keeps exactly the earlier
tasks and reports and stops with the invalid-glob abort, submitting nothing
from any later target. -/
theorem enumerateTargets_glob_fatal (env : Env Config Stdlib Chk Ast)
    (pat e d : String) (files₂ : List String) (files₁ : List String) :
    ∀ (tasks : List String) (reports : List Report),
      enumerateTargets env pat files₁ = (tasks, reports, none) →
      env.metadata d = .ok .dir →
      env.glob (d ++ "/" ++ pat) = .error e →
      enumerateTargets env pat (files₁ ++ d :: files₂)
        = (tasks, reports, some (.invalidGlob e)) := by
  induction files₁ with
  | nil =>
    intro tasks reports h1 h2 h3
    simp only [enumerateTargets, Prod.mk.injEq] at h1
    obtain ⟨rfl, rfl, -⟩ := h1
    simp [enumerateTargets, h2, h3]
  | cons f fs ih =>
    intro tasks reports h1 h2 h3
    rcases hrec : enumerateTargets env pat fs with ⟨t1, r1, a1⟩
    cases hm : env.metadata f with
    | ok kind =>
      cases kind with
      | file =>
        simp only [enumerateTargets, hm, hrec, Prod.mk.injEq] at h1
        obtain ⟨rfl, rfl, rfl⟩ := h1
        simp [List.cons_append, enumerateTargets, hm, ih t1 r1 hrec h2 h3]
      | dir =>
        cases hg : env.glob (f ++ "/" ++ pat) with
        | error e0 => simp [enumerateTargets, hm, hg] at h1
        | ok entries =>
          simp only [enumerateTargets, hm, hg, hrec, Prod.mk.injEq] at h1
          obtain ⟨rfl, rfl, rfl⟩ := h1
          simp [List.cons_append, enumerateTargets, hm, hg, hrec,
            ih t1 r1 hrec h2 h3]
      | other => simp [enumerateTargets, hm] at h1
    | error e0 =>
      simp only [enumerateTargets, hm, hrec, Prod.mk.injEq] at h1
      obtain ⟨rfl, rfl, rfl⟩ := h1
      simp [List.cons_append, enumerateTargets, hm, hrec, ih t1 r1 hrec h2 h3]

/-! The claims. -/

/-- C1: the claim states that every fatal error (explicit config unreadable or
malformed, implicit config malformed, standard-library file malformed,
unknown standard-library selector, checker construction failure) terminates
the process without printing the summary AND with a non-zero exit status.
The first half holds, but the exit-status half is false on the code: each of
these paths is `error!(...)` followed by `return` from `main`, and a `main`
that returns `()` exits with status 0.  This theorem evaluates the embedded
`main` on one failing input per fatal kind: each run ends with the expected
fatal error, no summary, and exit status 0 — never the non-zero status the
claim requires. -/
theorem c1_fatal_error_exits_zero :
    seleneMain unitEnv optsExplicit = fatalOutcome (.configRead .notFound) [] []
  ∧ seleneMain envMalformedConfig optsExplicit
      = fatalOutcome (.configParse "bad") [] []
  ∧ seleneMain envMalformedConfig baseOpts
      = fatalOutcome (.configParse "bad") [] []
  ∧ seleneMain envMalformedStdlib baseOpts
      = fatalOutcome (.stdlibParse "badstd") [] []
  ∧ seleneMain envUnknownStdlib baseOpts
      = fatalOutcome (.unknownStdlib "lua51") [] []
  ∧ seleneMain envCheckerFailure baseOpts
      = fatalOutcome (.checkerError "bad checker") [] []
  ∧ ∀ (f : Fatal) (tasks : List String) (reports : List Report),
      (fatalOutcome f tasks reports).summary = none
        ∧ (fatalOutcome f tasks reports).exitCode = 0 := by
  refine ⟨by decide, by decide, by decide, by decide, by decide, by decide,
    fun f tasks reports => ⟨rfl, rfl⟩⟩

/-- C2: on the summary path (a run whose summary is printed), the exit status
is 0 iff all three printed counters are 0, and it is 1 whenever their sum is
positive. -/
theorem c2_exit_status_iff_counters (env : Env Config Stdlib Chk Ast)
    (opts : Options) (c : Counters)
    (h : (seleneMain env opts).summary = some c) :
    ((seleneMain env opts).exitCode = 0
        ↔ c.parse_errors = 0 ∧ c.lint_errors = 0 ∧ c.lint_warnings = 0)
      ∧ (c.parse_errors + c.lint_errors + c.lint_warnings > 0
          → (seleneMain env opts).exitCode = 1) := by
  obtain ⟨config, stdlib, checker, tasks, enumReports, hc, hs, hk, he, hmain⟩ :=
    seleneMain_summary_inversion env opts c h
  rw [hmain] at h ⊢
  simp only [joinOutcome, Option.some.injEq] at h
  subst h
  simp only [joinOutcome]
  split_ifs with hpos
  · exact ⟨iff_of_false (by simp) (by omega), fun _ => rfl⟩
  · exact ⟨iff_of_true rfl (by omega), fun hgt => absurd hgt hpos⟩

/-- Witness for C2: the empty run over `unitEnv` prints the all-zero summary
and exits 0. -/
theorem c2_exit_status_iff_counters_witness :
    ((seleneMain unitEnv baseOpts).exitCode = 0
        ↔ Counters.zero.parse_errors = 0 ∧ Counters.zero.lint_errors = 0
            ∧ Counters.zero.lint_warnings = 0)
      ∧ (Counters.zero.parse_errors + Counters.zero.lint_errors
            + Counters.zero.lint_warnings > 0
          → (seleneMain unitEnv baseOpts).exitCode = 1) :=
  c2_exit_status_iff_counters unitEnv baseOpts Counters.zero (by decide)

/-- C3 counterexample: the claim states that an invalid glob pattern can
never be raised after some task was submitted.  In the run over `globEnv`
with targets `["a.lua", "dir"]`, the file target `a.lua` is submitted to the
pool first, and only then does the directory target raise the invalid-glob
fatal error: the outcome records both the fatal error and the
already-submitted task. -/
theorem c3_glob_fatal_after_submission :
    (seleneMain globEnv globOpts).fatalError
        = some (.invalidGlob "bad pattern")
      ∧ (seleneMain globEnv globOpts).submittedTasks = ["a.lua"] := by
  decide

/-- C3 amended: an invalid glob pattern aborts the run immediately — the
outcome is the fatal outcome (no summary, no further enumeration), and no
task from any target after the failing directory is ever submitted — but
tasks for files discovered before the failing directory have already been
submitted to the pool. -/
theorem c3_invalid_glob_aborts (env : Env Config Stdlib Chk Ast)
    (opts : Options) (config : Config) (stdlib : Stdlib) (checker : Chk)
    (files₁ files₂ : List String) (d e : String)
    (tasks : List String) (reports : List Report)
    (hc : resolveConfig env opts.config = .ok config)
    (hs : resolveStdlib env config = .ok stdlib)
    (hk : env.checkerNew config stdlib = .ok checker)
    (hf : opts.files = files₁ ++ d :: files₂)
    (h1 : enumerateTargets env opts.pattern files₁ = (tasks, reports, none))
    (h2 : env.metadata d = .ok .dir)
    (h3 : env.glob (d ++ "/" ++ opts.pattern) = .error e) :
    seleneMain env opts = fatalOutcome (.invalidGlob e) tasks reports := by
  have henum :=
    enumerateTargets_glob_fatal env opts.pattern e d files₂ files₁ tasks
      reports h1 h2 h3
  simp [seleneMain, hc, hs, hk, hf, henum]

/-- Witness for the amended C3: in the `globEnv` run the fatal glob error on
`dir` aborts the run with `a.lua` already submitted. -/
theorem c3_invalid_glob_aborts_witness :
    seleneMain globEnv globOpts
      = fatalOutcome (.invalidGlob "bad pattern") ["a.lua"] [] :=
  c3_invalid_glob_aborts globEnv globOpts () () () ["a.lua"] [] "dir"
    "bad pattern" ["a.lua"] [] rfl rfl rfl rfl (by decide) rfl rfl

/-- C4: standard-library resolution with selector `sel = config.std`: a
readable but malformed `<sel>.toml` is fatal; when the file cannot be read
the selector is resolved as a built-in preset; an unknown preset name is
fatal with `Unknown standard library '<sel>'` (`Fatal.unknownStdlib sel`
renders exactly that message); and a definition successfully loaded from the
file is inflated before being used (so checker construction receives the
inflated definition).  A resolution failure aborts the whole run with that
fatal error. -/
theorem c4_stdlib_resolution (env : Env Config Stdlib Chk Ast)
    (config : Config) :
    (∀ contents e,
        env.readToString (env.configStd config ++ ".toml") = .ok contents →
        env.parseStdlib contents = .error e →
        resolveStdlib env config = .error (.stdlibParse e))
  ∧ (∀ err, env.readToString (env.configStd config ++ ".toml") = .error err →
        env.fromName (env.configStd config) = none →
        resolveStdlib env config
          = .error (.unknownStdlib (env.configStd config)))
  ∧ (∀ err s, env.readToString (env.configStd config ++ ".toml") = .error err →
        env.fromName (env.configStd config) = some s →
        resolveStdlib env config = .ok s)
  ∧ (∀ contents s,
        env.readToString (env.configStd config ++ ".toml") = .ok contents →
        env.parseStdlib contents = .ok s →
        resolveStdlib env config = .ok (env.inflate s))
  ∧ (∀ opts f, resolveConfig env opts.config = .ok config →
        resolveStdlib env config = .error f →
        seleneMain env opts = fatalOutcome f [] []) := by
  refine ⟨?_, ?_, ?_, ?_, ?_⟩ <;> intros <;> simp_all [resolveStdlib, seleneMain]

/-- Witness for C4: each branch of standard-library resolution exercised on a
concrete environment. -/
theorem c4_stdlib_resolution_witness :
    resolveStdlib envMalformedStdlib () = .error (.stdlibParse "badstd")
  ∧ resolveStdlib envUnknownStdlib () = .error (.unknownStdlib "lua51")
  ∧ resolveStdlib unitEnv () = .ok ()
  ∧ resolveStdlib envStdlibFile () = .ok (envStdlibFile.inflate ())
  ∧ seleneMain envUnknownStdlib baseOpts
      = fatalOutcome (.unknownStdlib "lua51") [] [] :=
  ⟨(c4_stdlib_resolution envMalformedStdlib ()).1 "std" "badstd" rfl rfl,
   (c4_stdlib_resolution envUnknownStdlib ()).2.1 .notFound rfl rfl,
   (c4_stdlib_resolution unitEnv ()).2.2.1 .notFound () rfl rfl,
   (c4_stdlib_resolution envStdlibFile ()).2.2.2.1 "std" () rfl rfl,
   (c4_stdlib_resolution envUnknownStdlib ()).2.2.2.2 baseOpts
     (.unknownStdlib "lua51") rfl rfl⟩

/-- C5: for a file whose contents are read successfully but whose parse
fails, the task increments the parse-error counter by exactly 1, leaves the
lint-error and lint-warning counters unchanged, renders no diagnostics,
reports one non-fatal error, and returns normally (no path of `read_file`
aborts the run; the source's atomic `fetch_add(1)` is modelled by the
sequential counter update). -/
theorem c5_parse_failure (env : Env Config Stdlib Chk Ast) (quiet : Bool)
    (checker : Chk) (counters : Counters) (filename contents e : String)
    (hr : env.readToString filename = .ok contents)
    (hp : env.parse contents = .error e) :
    read_file env quiet checker counters filename
      = ({ counters with parse_errors := counters.parse_errors + 1 }, [],
          [.parseFailed filename e]) := by
  simp [read_file, hr, hp]

/-- Witness for C5: a concrete parse failure bumps only the parse-error
counter. -/
theorem c5_parse_failure_witness :
    read_file parseFailEnv false () ⟨3, 4, 5⟩ "f.lua"
      = (⟨4, 4, 5⟩, [], [.parseFailed "f.lua" "oops"]) :=
  c5_parse_failure parseFailEnv false () ⟨3, 4, 5⟩ "f.lua" "x" "oops" rfl rfl

/-- C8: configuration resolution precedence: an explicit config path that
cannot be read or parsed is fatal; with no explicit path, `selene.toml` is
tried, a read failure falls back to the built-in default config with no
error, and a present-but-malformed file is fatal with exactly the same error
as the explicit case (`Fatal.configParse`).  A config resolution failure
aborts the whole run before any file is processed. -/
theorem c8_config_resolution (env : Env Config Stdlib Chk Ast) :
    (∀ path e, env.readToString path = .error e →
        resolveConfig env (some path) = .error (.configRead e))
  ∧ (∀ path contents e, env.readToString path = .ok contents →
        env.parseConfig contents = .error e →
        resolveConfig env (some path) = .error (.configParse e))
  ∧ (∀ e, env.readToString "selene.toml" = .error e →
        resolveConfig env none = .ok env.defaultConfig)
  ∧ (∀ contents e, env.readToString "selene.toml" = .ok contents →
        env.parseConfig contents = .error e →
        resolveConfig env none = .error (.configParse e))
  ∧ (∀ opts f, resolveConfig env opts.config = .error f →
        seleneMain env opts = fatalOutcome f [] []) := by
  refine ⟨?_, ?_, ?_, ?_, ?_⟩ <;> intros <;> simp_all [resolveConfig, seleneMain]

/-- Witness for C8: each branch of configuration resolution exercised on a
concrete environment. -/
theorem c8_config_resolution_witness :
    resolveConfig unitEnv (some "cfg.toml") = .error (.configRead .notFound)
  ∧ resolveConfig envMalformedConfig (some "cfg.toml")
      = .error (.configParse "bad")
  ∧ resolveConfig unitEnv none = .ok unitEnv.defaultConfig
  ∧ resolveConfig envMalformedConfig none = .error (.configParse "bad")
  ∧ seleneMain unitEnv optsExplicit
      = fatalOutcome (.configRead .notFound) [] [] :=
  ⟨(c8_config_resolution unitEnv).1 "cfg.toml" .notFound rfl,
   (c8_config_resolution envMalformedConfig).2.1 "cfg.toml" "x" "bad" rfl rfl,
   (c8_config_resolution unitEnv).2.2.1 .notFound rfl,
   (c8_config_resolution envMalformedConfig).2.2.2.1 "x" "bad" rfl rfl,
   (c8_config_resolution unitEnv).2.2.2.2 optsExplicit
     (.configRead .notFound) rfl⟩

/-- C9: on the implicit-config path, any read failure of `selene.toml` — not
only absence but e.g. `permissionDenied` — silently falls back to the
built-in default config (no fatal error; the code matches `Err(_)` and the
fallback arm reports nothing); only a parse failure of successfully read
contents is fatal.  Likewise any read failure of `<selector>.toml` falls
through to built-in preset resolution. -/
theorem c9_read_failure_fallback (env : Env Config Stdlib Chk Ast)
    (config : Config) :
    (∀ e, env.readToString "selene.toml" = .error e →
        resolveConfig env none = .ok env.defaultConfig)
  ∧ (∀ e s, env.readToString (env.configStd config ++ ".toml") = .error e →
        env.fromName (env.configStd config) = some s →
        resolveStdlib env config = .ok s)
  ∧ (∀ e, env.readToString (env.configStd config ++ ".toml") = .error e →
        env.fromName (env.configStd config) = none →
        resolveStdlib env config
          = .error (.unknownStdlib (env.configStd config))) := by
  refine ⟨?_, ?_, ?_⟩ <;> intros <;> simp_all [resolveConfig, resolveStdlib]

/-- Witness for C9: a `permissionDenied` read failure (the file may well
exist) falls back silently on both paths. -/
theorem c9_read_failure_fallback_witness :
    resolveConfig permEnv none = .ok permEnv.defaultConfig
  ∧ resolveStdlib permEnv () = .ok ()
  ∧ resolveStdlib permEnvNoPreset () = .error (.unknownStdlib "lua51") :=
  ⟨(c9_read_failure_fallback permEnv ()).1 .permissionDenied rfl,
   (c9_read_failure_fallback permEnv ()).2.1 .permissionDenied () rfl rfl,
   (c9_read_failure_fallback permEnvNoPreset ()).2.2 .permissionDenied rfl rfl⟩

/-- Per file, the error count plus the warning count equals the diagnostic
count, because every diagnostic is an `Error` or a `Warning`. -/
theorem engineCounts_add (env : Env Config Stdlib Chk Ast) (checker : Chk)
    (f : String) :
    engineErrorCount env checker f + engineWarningCount env checker f
      = engineDiagCount env checker f := by
  unfold engineErrorCount engineWarningCount engineDiagCount
  cases hr : env.readToString f with
  | error e => simp
  | ok contents =>
    cases hp : env.parse contents with
    | error e => simp [hp]
    | ok ast => simp [hp, countP_error_add_warning]

/-- Summed over any task list, the error counts plus the warning counts give
the total diagnostic count. -/
theorem sum_engineCounts (env : Env Config Stdlib Chk Ast) (checker : Chk)
    (tasks : List String) :
    (tasks.map (engineErrorCount env checker)).sum
        + (tasks.map (engineWarningCount env checker)).sum
      = (tasks.map (engineDiagCount env checker)).sum := by
  induction tasks with
  | nil => rfl
  | cons f fs ih =>
    simp only [List.map_cons, List.sum_cons]
    have h := engineCounts_add env checker f
    omega

/-- C6: after a full run (a printed summary), `lint_errors` is the sum of the
per-file `Error` counts, `lint_warnings` the sum of the per-file `Warning`
counts — each submitted file contributing exactly once — and their sum equals
the total number of diagnostics the engine returned across all files that
were read and parsed successfully. -/
theorem c6_lint_totals (env : Env Config Stdlib Chk Ast) (opts : Options)
    (config : Config) (stdlib : Stdlib) (checker : Chk) (c : Counters)
    (hc : resolveConfig env opts.config = .ok config)
    (hs : resolveStdlib env config = .ok stdlib)
    (hk : env.checkerNew config stdlib = .ok checker)
    (h : (seleneMain env opts).summary = some c) :
    c.lint_errors
        = ((seleneMain env opts).submittedTasks.map
            (engineErrorCount env checker)).sum
  ∧ c.lint_warnings
        = ((seleneMain env opts).submittedTasks.map
            (engineWarningCount env checker)).sum
  ∧ c.lint_errors + c.lint_warnings
        = ((seleneMain env opts).submittedTasks.map
            (engineDiagCount env checker)).sum := by
  obtain ⟨config1, stdlib1, checker1, tasks, enumReports, hc1, hs1, hk1, he1,
    hmain⟩ := seleneMain_summary_inversion env opts c h
  rw [hc] at hc1
  injection hc1 with hcfg
  subst hcfg
  rw [hs] at hs1
  injection hs1 with hstd
  subst hstd
  rw [hk] at hk1
  injection hk1 with hchk
  subst hchk
  rw [hmain] at h ⊢
  simp only [joinOutcome, Option.some.injEq] at h
  subst h
  simp only [joinOutcome, runTasks_counters]
  refine ⟨by simp [Counters.zero], by simp [Counters.zero], ?_⟩
  simp only [Counters.zero]
  rw [← sum_engineCounts]
  omega

/-- Witness for C6: the run over `lintEnv` on `a.lua` ends with 1 lint error
and 2 lint warnings, matching the per-file engine counts. -/
theorem c6_lint_totals_witness :
    (⟨0, 1, 2⟩ : Counters).lint_errors
        = ((seleneMain lintEnv lintOpts).submittedTasks.map
            (engineErrorCount lintEnv ())).sum
  ∧ (⟨0, 1, 2⟩ : Counters).lint_warnings
        = ((seleneMain lintEnv lintOpts).submittedTasks.map
            (engineWarningCount lintEnv ())).sum
  ∧ (⟨0, 1, 2⟩ : Counters).lint_errors + (⟨0, 1, 2⟩ : Counters).lint_warnings
        = ((seleneMain lintEnv lintOpts).submittedTasks.map
            (engineDiagCount lintEnv ())).sum :=
  c6_lint_totals lintEnv lintOpts () () () ⟨0, 1, 2⟩ rfl rfl rfl
    (by simp [seleneMain, resolveConfig, resolveStdlib, enumerateTargets,
      joinOutcome, runTasks, read_file, severityCounts, lintEnv, lintOpts,
      baseOpts, List.mergeSort, List.splitInTwo, List.merge, sortLe,
      diagA, diagB, diagC, Counters.zero])

/-- C7: for a file whose parse succeeds, the rendered blocks are exactly the
diagnostics sorted by start position with the stable `mergeSort` (modelling
Rust's stable `sort_by_key`): their start positions are non-decreasing, they
are a permutation of rendering the engine's output, and any two diagnostics
in non-decreasing key order keep their relative order. -/
theorem c7_sorted_rendering (env : Env Config Stdlib Chk Ast) (quiet : Bool)
    (checker : Chk) (counters : Counters) (filename contents : String)
    (ast : Ast)
    (hr : env.readToString filename = .ok contents)
    (hp : env.parse contents = .ok ast) :
    (read_file env quiet checker counters filename).2.1
        = (List.mergeSort (env.testOn checker ast) sortLe).map
            (renderBlock quiet filename)
  ∧ ((read_file env quiet checker counters filename).2.1.map
        RenderedBlock.startPosition).Pairwise (· ≤ ·)
  ∧ (read_file env quiet checker counters filename).2.1.Perm
        ((env.testOn checker ast).map (renderBlock quiet filename))
  ∧ ∀ a b, List.Sublist [a, b] (env.testOn checker ast)
      → a.diagnostic.startPosition ≤ b.diagnostic.startPosition
      → List.Sublist
          [renderBlock quiet filename a, renderBlock quiet filename b]
          (read_file env quiet checker counters filename).2.1 := by
  have hred : (read_file env quiet checker counters filename).2.1
      = (List.mergeSort (env.testOn checker ast) sortLe).map
          (renderBlock quiet filename) := by
    simp [read_file, hr, hp]
  refine ⟨hred, ?_, ?_, ?_⟩
  · rw [hred, List.map_map, List.pairwise_map]
    have hsorted :=
      List.sorted_mergeSort sortLe_trans sortLe_total (env.testOn checker ast)
    exact hsorted.imp (by
      intro a b hab
      simpa [sortLe, renderBlock] using hab)
  · rw [hred]
    exact (List.mergeSort_perm (env.testOn checker ast) sortLe).map _
  · intro a b hsub hle
    rw [hred]
    have hpair :=
      List.pair_sublist_mergeSort sortLe_trans sortLe_total
        (by simpa [sortLe] using hle) hsub
    simpa using hpair.map (renderBlock quiet filename)

/-- Witness for C7: the three out-of-order diagnostics of `lintEnv` are
rendered in position order 2, 5, 9, and the key-ordered pair
`(diagA, diagC)` keeps its relative order. -/
theorem c7_sorted_rendering_witness :
    (read_file lintEnv false () Counters.zero "a.lua").2.1
        = (List.mergeSort (lintEnv.testOn () 0) sortLe).map
            (renderBlock false "a.lua")
  ∧ ((read_file lintEnv false () Counters.zero "a.lua").2.1.map
        RenderedBlock.startPosition).Pairwise (· ≤ ·)
  ∧ (read_file lintEnv false () Counters.zero "a.lua").2.1.Perm
        ((lintEnv.testOn () 0).map (renderBlock false "a.lua"))
  ∧ List.Sublist
        [renderBlock false "a.lua" diagA, renderBlock false "a.lua" diagC]
        (read_file lintEnv false () Counters.zero "a.lua").2.1 := by
  have h := c7_sorted_rendering lintEnv false () Counters.zero "a.lua"
    "code" 0 rfl rfl
  exact ⟨h.1, h.2.1, h.2.2.1, h.2.2.2 diagA diagC (by decide) (by decide)⟩

/-- A task whose file read fails changes nothing: same counters, no rendered
blocks, one read-failure report. -/
theorem read_file_unreadable (env : Env Config Stdlib Chk Ast) (quiet : Bool)
    (checker : Chk) (counters : Counters) (f : String) (e : IOError)
    (h : env.readToString f = .error e) :
    read_file env quiet checker counters f
      = (counters, [], [.readFileFailed f e]) := by
  simp [read_file, h]

/-- A pool in which every task's read fails leaves the counters untouched,
renders nothing, and reports exactly one read failure per task. -/
theorem runTasks_unreadable (env : Env Config Stdlib Chk Ast) (quiet : Bool)
    (checker : Chk) :
    ∀ (tasks : List String) (counters : Counters),
      (∀ f ∈ tasks, ∃ e, env.readToString f = .error e) →
      (runTasks env quiet checker tasks counters).1 = counters
    ∧ (runTasks env quiet checker tasks counters).2.1 = []
    ∧ (runTasks env quiet checker tasks counters).2.2.countP
        Report.isReadFailure = tasks.length
    ∧ (runTasks env quiet checker tasks counters).2.2.length
        = tasks.length := by
  intro tasks
  induction tasks with
  | nil => intro counters hall; simp [runTasks]
  | cons f fs ih =>
    intro counters hall
    obtain ⟨e, he⟩ := hall f (List.mem_cons_self f fs)
    have h1 := read_file_unreadable env quiet checker counters f e he
    rcases hfs : runTasks env quiet checker fs counters with ⟨c2, r2, rep2⟩
    have h2 := ih counters fun g hg => hall g (List.mem_cons_of_mem f hg)
    rw [hfs] at h2
    obtain ⟨h2a, h2b, h2c, h2d⟩ := h2
    simp at h2a h2b h2c h2d
    simp [runTasks, h1, hfs, h2a, h2b, List.countP_cons,
      Report.isReadFailure, h2c, h2d]

/-- Target enumeration itself never produces a read-failure report (its
reports are metadata failures and glob-entry failures). -/
theorem enumerateTargets_reports_no_read (env : Env Config Stdlib Chk Ast)
    (pat : String) :
    ∀ files : List String,
      ((enumerateTargets env pat files).2.1.countP Report.isReadFailure)
        = 0 := by
  intro files
  induction files with
  | nil => rfl
  | cons f fs ih =>
    rcases hrec : enumerateTargets env pat fs with ⟨t1, r1, a1⟩
    rw [hrec] at ih
    cases hm : env.metadata f with
    | ok kind =>
      cases kind with
      | file => simpa [enumerateTargets, hm, hrec] using ih
      | dir =>
        cases hg : env.glob (f ++ "/" ++ pat) with
        | error e => simp [enumerateTargets, hm, hg]
        | ok entries =>
          have hzero : (entries.filterMap fun entry =>
              match entry with
              | .ok _ => none
              | .error e0 =>
                some (Report.globEntryFailed f e0)).countP
                Report.isReadFailure = 0 := by
            rw [List.countP_eq_zero]
            intro r hr
            obtain ⟨x, hx, hgx⟩ := List.mem_filterMap.mp hr
            cases x with
            | ok p => simp at hgx
            | error e0 =>
              simp only [Option.some.injEq] at hgx
              subst hgx
              simp [Report.isReadFailure]
          simp [enumerateTargets, hm, hg, hrec, List.countP_append,
            hzero, ih]
      | other => simp [enumerateTargets, hm]
    | error e =>
      simp [enumerateTargets, hm, hrec, List.countP_cons,
        Report.isReadFailure, ih]

/-- C10: a task whose file read fails modifies none of the three counters;
consequently a completed run in which every submitted file is unreadable
ends with all counters zero, prints the all-zero summary, exits with status
0, renders nothing — while one read-failure error per file was reported. -/
theorem c10_unreadable_run (env : Env Config Stdlib Chk Ast) (opts : Options)
    (c : Counters)
    (h : (seleneMain env opts).summary = some c)
    (hall : ∀ f ∈ (seleneMain env opts).submittedTasks,
        ∃ e, env.readToString f = .error e) :
    c = Counters.zero
  ∧ (seleneMain env opts).exitCode = 0
  ∧ (seleneMain env opts).rendered = []
  ∧ (seleneMain env opts).reports.countP Report.isReadFailure
      = (seleneMain env opts).submittedTasks.length := by
  obtain ⟨config, stdlib, checker, tasks, enumReports, hc, hs, hk, he,
    hmain⟩ := seleneMain_summary_inversion env opts c h
  rw [hmain] at h hall ⊢
  have hsub : MainOutcome.submittedTasks
      (joinOutcome env opts.quiet checker tasks enumReports) = tasks := rfl
  rw [hsub] at hall
  obtain ⟨hr1, hr2, hr3, hr4⟩ :=
    runTasks_unreadable env opts.quiet checker tasks Counters.zero hall
  have hcz : c = Counters.zero := by
    simp only [joinOutcome, Option.some.injEq] at h
    rw [hr1] at h
    exact h.symm
  subst hcz
  have henum := enumerateTargets_reports_no_read env opts.pattern opts.files
  rw [he] at henum
  simp only at henum
  refine ⟨rfl, ?_, ?_, ?_⟩
  · simp only [joinOutcome]
    rw [hr1]
    simp [Counters.zero]
  · simp only [joinOutcome]
    exact hr2
  · simp only [joinOutcome]
    rw [List.countP_append, henum, hr3]
    omega

/-- Witness for C10: a run over the single unreadable file `x.lua` ends with
the all-zero summary, exit status 0, nothing rendered, and one read-failure
report. -/
theorem c10_unreadable_run_witness :
    (⟨0, 0, 0⟩ : Counters) = Counters.zero
  ∧ (seleneMain unitEnv unreadableOpts).exitCode = 0
  ∧ (seleneMain unitEnv unreadableOpts).rendered = []
  ∧ (seleneMain unitEnv unreadableOpts).reports.countP Report.isReadFailure
      = (seleneMain unitEnv unreadableOpts).submittedTasks.length := by
  have h := c10_unreadable_run unitEnv unreadableOpts ⟨0, 0, 0⟩ (by decide)
    (fun f _ => ⟨.notFound, rfl⟩)
  exact h

end Selene
